import Mathlib

/-!
Verification development for the super-agent chat orchestration pipeline.

The definitions below are shallow embeddings of the TypeScript services of
the repository (chat service, analysis service, tool preparation service,
execution context service, LLM router, message persistence, in-memory
conversation store).  JavaScript objects used as string-keyed maps are
modelled as association lists, JSON values as an inductive type, fallible
external calls (LLM, database, broker) as `Except`/`Option`-valued oracle
parameters, and the Redis cache as an association list of key/value pairs.
-/

namespace SuperAgent

/-- Association-list lookup, mirroring JavaScript `map.get` / object indexing
over string keys. -/
def alookup {β : Type} (l : List (String × β)) (k : String) : Option β :=
  match l with
  | [] => none
  | (k', v) :: rest => if k' = k then some v else alookup rest k

/-- Insert or overwrite a key in an association list (JavaScript
`map.set(k, v)` / Redis `SETEX`). -/
def aset {β : Type} (l : List (String × β)) (k : String) (v : β) :
    List (String × β) :=
  match l with
  | [] => [(k, v)]
  | (k', v') :: rest =>
    if k' = k then (k', v) :: rest else (k', v') :: aset rest k v

/-- Remove a key from an association list (Redis `DEL`). -/
def adelete {β : Type} (l : List (String × β)) (k : String) :
    List (String × β) :=
  match l with
  | [] => []
  | (k', v') :: rest =>
    if k' = k then adelete rest k else (k', v') :: adelete rest k

/-! ## Data model (from `chat.interfaces.ts` and the Prisma schema) -/

/-- Priority levels of an execution step (`'critical' | 'high' | 'medium' |
'low'` in `chat.interfaces.ts`). -/
inductive StepPriority where
  | critical | high | medium | low
deriving DecidableEq, Repr

/-- One planned execution step of a `ComprehensiveAnalysis`
(`ExecutionStep` in `chat.interfaces.ts`). -/
structure ExecutionStep where
  stepNumber : Nat
  description : String
  requiredData : List String
  appName : Option String := none
  toolCategory : String
  dependencies : List Nat
  priority : StepPriority
deriving DecidableEq, Repr

/-- Complexity estimate (`'low' | 'medium' | 'high'`). -/
inductive Complexity where
  | low | medium | high
deriving DecidableEq, Repr

/-- Conversation state of the session summary (`conversationState` in
`chat.interfaces.ts`). -/
inductive ConversationState where
  | information_gathering | ready_to_execute | executed
  | clarification_needed | completed
deriving DecidableEq, Repr

/-- A key entity tracked in the conversation summary. -/
structure KeyEntity where
  type : String
  value : String
  confidence : ℚ
deriving DecidableEq, Repr

/-- Contextual details inside a `ConversationSummary`. -/
structure ContextualDetails where
  gatheredInformation : List String
  missingInformation : List String
  userPreferences : List String
  previousActions : List String
deriving DecidableEq, Repr

/-- Per-session conversation summary (`ConversationSummary` in
`chat.interfaces.ts`). -/
structure ConversationSummary where
  currentIntent : String
  contextualDetails : ContextualDetails
  conversationState : ConversationState
  keyEntities : List KeyEntity
  nextExpectedAction : String
  topicShifts : List String
deriving DecidableEq, Repr

/-- App/tool priority recommendation (`ToolPriority` in
`chat.interfaces.ts`). -/
structure ToolPriority where
  appName : String
  priority : ℚ
  reasoning : String
deriving DecidableEq, Repr

/-- The single structured analysis record produced per turn
(`ComprehensiveAnalysis` in `chat.interfaces.ts`).  JavaScript numbers are
modelled as rationals. -/
structure ComprehensiveAnalysis where
  queryAnalysis : String
  isQueryClear : Bool
  confidenceScore : ℚ
  requiresToolExecution : Bool
  executionSteps : List ExecutionStep
  estimatedComplexity : Complexity
  requiresSequentialExecution : Bool
  needsInfoGathering : Bool
  missingInformation : List String
  searchQueries : List String
  clarificationNeeded : List String
  canProceedWithDefaults : Bool
  conversationSummary : ConversationSummary
  recommendedApps : List String
  toolPriorities : List ToolPriority
deriving DecidableEq, Repr

/-! ## C1 — confidence-tier dispatch (`ChatService.processChat`, phase 2) -/

/-- The three dispatch paths of `ChatService.processChat`. -/
inductive DispatchTier where
  | toolExecution | clarificationSimple | conversational
deriving DecidableEq, Repr

/-- Tier selection, translated from the `if`/`else if`/`else` chain in
`ChatService.processChat` (phase 2): tool path when
`confidenceScore >= 0.8 && requiresToolExecution`, else clarification path
when `confidenceScore >= 0.4`, else conversational path. -/
def selectTier (analysis : ComprehensiveAnalysis) : DispatchTier :=
  if analysis.confidenceScore ≥ 0.8 ∧ analysis.requiresToolExecution then
    .toolExecution
  else if analysis.confidenceScore ≥ 0.4 then
    .clarificationSimple
  else
    .conversational

/-- C1: the dispatcher selects the tier exactly by the spec rule: the tool
path runs iff `confidence ≥ 0.8` and `requiresToolExecution`; the
clarification/simple path runs iff `0.4 ≤ confidence < 0.8`, or
`confidence ≥ 0.8` without tool execution; the conversational path runs iff
`confidence < 0.4`. -/
theorem selectTier_matches_spec (a : ComprehensiveAnalysis) :
    (selectTier a = .toolExecution ↔
      a.confidenceScore ≥ 0.8 ∧ a.requiresToolExecution = true) ∧
    (selectTier a = .clarificationSimple ↔
      ((0.4 ≤ a.confidenceScore ∧ a.confidenceScore < 0.8) ∨
        (a.confidenceScore ≥ 0.8 ∧ a.requiresToolExecution = false))) ∧
    (selectTier a = .conversational ↔ a.confidenceScore < 0.4) := by
  unfold selectTier
  rcases hreq : a.requiresToolExecution with _ | _
  · by_cases h8 : a.confidenceScore ≥ 0.8
    · have h4 : a.confidenceScore ≥ 0.4 := by linarith
      refine ⟨?_, ?_, ?_⟩ <;> simp [hreq, h8, h4]
    · by_cases h4 : a.confidenceScore ≥ 0.4
      · have hlt : a.confidenceScore < 0.8 := lt_of_not_le h8
        refine ⟨?_, ?_, ?_⟩ <;> simp [hreq, h8, h4, hlt]
      · have hlt : a.confidenceScore < 0.4 := lt_of_not_le h4
        refine ⟨?_, ?_, ?_⟩ <;> simp [hreq, h8, h4, hlt]
  · by_cases h8 : a.confidenceScore ≥ 0.8
    · have h4 : a.confidenceScore ≥ 0.4 := by linarith
      refine ⟨?_, ?_, ?_⟩ <;> simp [hreq, h8, h4]
    · by_cases h4 : a.confidenceScore ≥ 0.4
      · have hlt : a.confidenceScore < 0.8 := lt_of_not_le h8
        refine ⟨?_, ?_, ?_⟩ <;> simp [hreq, h8, h4, hlt]
      · have hlt : a.confidenceScore < 0.4 := lt_of_not_le h4
        refine ⟨?_, ?_, ?_⟩ <;> simp [hreq, h8, h4, hlt]

/-! ## JSON values and chat messages -/

/-- JavaScript/JSON values, as they flow through tool arguments and tool
results.  `undefined` models the JavaScript `undefined` value (for example the
result of a `Map.get` miss). -/
inductive JsonValue where
  | undefined
  | null
  | bool (b : Bool)
  | num (q : ℚ)
  | str (s : String)
  | arr (elems : List JsonValue)
  | obj (fields : List (String × JsonValue))

/-- Message roles (`'user' | 'assistant' | 'system'`). -/
inductive Role where
  | user | assistant | system
deriving DecidableEq, Repr

/-- A correlated tool call record carried on an assistant message
(`toolCalls` entries in `chat.interfaces.ts`). -/
structure ToolCallRecord where
  name : String
  args : JsonValue
  result : Option JsonValue := none
  toolCallId : Option String := none

/-- A chat message (`ChatMessage` in `chat.interfaces.ts`). -/
structure ChatMessage where
  role : Role
  content : String
  timestamp : Nat
  toolCalls : Option (List ToolCallRecord) := none
  analysis : Option ComprehensiveAnalysis := none

/-! ## C5 — analysis fallback (`AnalysisService`) -/

/-- The deterministic fallback analysis returned by
`AnalysisService.getFallbackAnalysis`. -/
def getFallbackAnalysis : ComprehensiveAnalysis where
  queryAnalysis := "Basic query analysis - fallback due to error"
  isQueryClear := true
  confidenceScore := 0.1
  requiresToolExecution := false
  executionSteps :=
    [{ stepNumber := 1
       description := "Handle user query conversationally (fallback)"
       requiredData := []
       toolCategory := "general"
       dependencies := []
       priority := .medium }]
  estimatedComplexity := .low
  requiresSequentialExecution := false
  needsInfoGathering := false
  missingInformation := []
  searchQueries := []
  clarificationNeeded := []
  canProceedWithDefaults := true
  conversationSummary :=
    { currentIntent := "User interaction (fallback)"
      contextualDetails :=
        { gatheredInformation := []
          missingInformation := []
          userPreferences := []
          previousActions := [] }
      conversationState := .information_gathering
      keyEntities := []
      nextExpectedAction := "Continue conversation (fallback)"
      topicShifts := [] }
  recommendedApps := []
  toolPriorities := []

/-- `CacheService.getCachedAnalysis`: read the analysis cache at key
`analysis:` ++ queryHash. -/
def getCachedAnalysis (cache : List (String × ComprehensiveAnalysis))
    (queryHash : String) : Option ComprehensiveAnalysis :=
  alookup cache ("analysis:" ++ queryHash)

/-- `CacheService.setCachedAnalysis`: write the analysis cache at key
`analysis:` ++ queryHash. -/
def setCachedAnalysis (cache : List (String × ComprehensiveAnalysis))
    (queryHash : String) (analysis : ComprehensiveAnalysis) :
    List (String × ComprehensiveAnalysis) :=
  aset cache ("analysis:" ++ queryHash) analysis

/-- `AnalysisService.performComprehensiveAnalysis`, with the structured
LLM call (`generateObject`) as an `Except`-valued oracle and `queryHash`
standing for `generateQueryHash(userQuery, conversationHistory)`.  On a
cache hit the cached analysis is returned; otherwise the LLM result is
cached and returned, and on an LLM failure the fallback analysis is
returned without touching the cache.  The result pairs the analysis with
the analysis cache after the call. -/
def performComprehensiveAnalysis
    (cache : List (String × ComprehensiveAnalysis)) (queryHash : String)
    (llmCall : Except Unit ComprehensiveAnalysis) :
    ComprehensiveAnalysis × List (String × ComprehensiveAnalysis) :=
  match getCachedAnalysis cache queryHash with
  | some cached => (cached, cache)
  | none =>
    match llmCall with
    | .ok object => (object, setCachedAnalysis cache queryHash object)
    | .error _ => (getFallbackAnalysis, cache)

/-- C5: when the analysis LLM call fails, `performComprehensiveAnalysis`
returns the deterministic fallback analysis — `confidenceScore = 0.1`,
`requiresToolExecution = false`, exactly one execution step, conversation
state `information_gathering`, empty `recommendedApps` — and the analysis
cache is left unchanged, so a later identical query still misses the cache
rather than reading the fallback from it. -/
theorem analysis_llm_failure_returns_uncached_fallback
    (cache : List (String × ComprehensiveAnalysis)) (queryHash : String)
    (hmiss : getCachedAnalysis cache queryHash = none) :
    (performComprehensiveAnalysis cache queryHash (.error ())).1 =
        getFallbackAnalysis ∧
    (performComprehensiveAnalysis cache queryHash (.error ())).1.confidenceScore
        = 0.1 ∧
    (performComprehensiveAnalysis cache queryHash
        (.error ())).1.requiresToolExecution = false ∧
    (performComprehensiveAnalysis cache queryHash
        (.error ())).1.executionSteps.length = 1 ∧
    (performComprehensiveAnalysis cache queryHash
        (.error ())).1.conversationSummary.conversationState =
        .information_gathering ∧
    (performComprehensiveAnalysis cache queryHash
        (.error ())).1.recommendedApps = [] ∧
    (performComprehensiveAnalysis cache queryHash (.error ())).2 = cache ∧
    getCachedAnalysis
        (performComprehensiveAnalysis cache queryHash (.error ())).2
        queryHash = none := by
  simp [performComprehensiveAnalysis, hmiss, getFallbackAnalysis]

/-- Witness for C5 at a concrete empty cache and hash. -/
theorem analysis_llm_failure_returns_uncached_fallback_witness :
    (performComprehensiveAnalysis [] "cXVlcnk_" (.error ())).1 =
        getFallbackAnalysis ∧
    (performComprehensiveAnalysis [] "cXVlcnk_" (.error ())).1.confidenceScore
        = 0.1 ∧
    (performComprehensiveAnalysis [] "cXVlcnk_"
        (.error ())).1.requiresToolExecution = false ∧
    (performComprehensiveAnalysis [] "cXVlcnk_"
        (.error ())).1.executionSteps.length = 1 ∧
    (performComprehensiveAnalysis [] "cXVlcnk_"
        (.error ())).1.conversationSummary.conversationState =
        .information_gathering ∧
    (performComprehensiveAnalysis [] "cXVlcnk_"
        (.error ())).1.recommendedApps = [] ∧
    (performComprehensiveAnalysis [] "cXVlcnk_" (.error ())).2 = [] ∧
    getCachedAnalysis
        (performComprehensiveAnalysis [] "cXVlcnk_" (.error ())).2
        "cXVlcnk_" = none :=
  analysis_llm_failure_returns_uncached_fallback [] "cXVlcnk_" rfl

/-! ## C10 — in-memory conversation store (`ConversationService`) -/

/-- `ConversationService.getConversationKey`: `userId:sessionId` when a
session id is given, else `userId`. -/
def getConversationKey (userId : String) (sessionId : Option String) :
    String :=
  match sessionId with
  | some sid => userId ++ ":" ++ sid
  | none => userId

/-- The history edit performed by `ConversationService.updateHistory`:
`history.push(message)` followed by
`history.splice(0, history.length - maxConversationHistory)` when the
length exceeds the bound. -/
def pushAndTrim (old : List ChatMessage) (message : ChatMessage)
    (maxConversationHistory : Nat) : List ChatMessage :=
  let history := old ++ [message]
  if history.length > maxConversationHistory then
    history.drop (history.length - maxConversationHistory)
  else history

/-- `ConversationService.updateHistory`: push the message onto the stored
history for the conversation key, trim the front of the list when its
length exceeds `maxConversationHistory`, and store the result. -/
def updateHistory (store : List (String × List ChatMessage))
    (maxConversationHistory : Nat) (userId : String) (message : ChatMessage)
    (sessionId : Option String) : List (String × List ChatMessage) :=
  let key := getConversationKey userId sessionId
  aset store key
    (pushAndTrim ((alookup store key).getD []) message maxConversationHistory)

/-- Lookup after insert at the same key. -/
theorem alookup_aset {β : Type} (l : List (String × β)) (k : String) (v : β) :
    alookup (aset l k v) k = some v := by
  induction l with
  | nil => simp [aset, alookup]
  | cons hd tl ih =>
    obtain ⟨k', v'⟩ := hd
    by_cases hk : k' = k <;> simp [aset, alookup, hk, ih]

/-- The trimmed history is bounded, is a suffix of the pushed history, and
keeps the appended message when the bound is positive. -/
theorem pushAndTrim_spec (old : List ChatMessage) (message : ChatMessage)
    (maxConversationHistory : Nat) (hpos : 1 ≤ maxConversationHistory) :
    (pushAndTrim old message maxConversationHistory).length ≤
      maxConversationHistory ∧
    pushAndTrim old message maxConversationHistory <:+ old ++ [message] ∧
    ∃ k ≤ old.length,
      pushAndTrim old message maxConversationHistory =
        old.drop k ++ [message] := by
  unfold pushAndTrim
  by_cases hlen : (old ++ [message]).length > maxConversationHistory
  · have hk : (old ++ [message]).length - maxConversationHistory ≤
        old.length := by
      simp only [List.length_append, List.length_singleton] at hlen ⊢
      omega
    refine ⟨?_, ?_, ?_⟩
    · simp only [hlen, if_pos, List.length_drop]
      omega
    · simp only [hlen, if_pos]
      exact List.drop_suffix _ _
    · refine ⟨(old ++ [message]).length - maxConversationHistory, hk, ?_⟩
      simp only [hlen, if_pos]
      exact List.drop_append_of_le_length hk
  · refine ⟨?_, ?_, ?_⟩
    · simp only [hlen, if_neg, not_false_iff]
      omega
    · rw [if_neg hlen]
    · exact ⟨0, Nat.zero_le _, by rw [if_neg hlen]; simp⟩

/-- C10: after `updateHistory`, the stored history for the conversation key
has at most `maxConversationHistory` messages, it is a suffix of the old
history with the new message appended (so only the oldest messages are ever
discarded), and — whenever the bound is positive — it consists of the old
history with some number of oldest messages dropped from the front,
followed by the newly appended message, which is therefore retained. -/
theorem updateHistory_trims_oldest
    (store : List (String × List ChatMessage)) (maxConversationHistory : Nat)
    (userId : String) (message : ChatMessage) (sessionId : Option String)
    (hpos : 1 ≤ maxConversationHistory) :
    ((alookup (updateHistory store maxConversationHistory userId message
        sessionId) (getConversationKey userId sessionId)).getD []).length ≤
      maxConversationHistory ∧
    ((alookup (updateHistory store maxConversationHistory userId message
        sessionId) (getConversationKey userId sessionId)).getD []) <:+
      ((alookup store (getConversationKey userId sessionId)).getD []
        ++ [message]) ∧
    (∃ k ≤ ((alookup store (getConversationKey userId sessionId)).getD
        []).length,
      ((alookup (updateHistory store maxConversationHistory userId message
          sessionId) (getConversationKey userId sessionId)).getD []) =
        ((alookup store (getConversationKey userId sessionId)).getD
          []).drop k ++ [message]) := by
  unfold updateHistory
  rw [alookup_aset]
  exact pushAndTrim_spec _ message maxConversationHistory hpos

/-- First stored message used by the C10 witness. -/
def wMsg1 : ChatMessage := { role := .user, content := "m1", timestamp := 1 }

/-- Second stored message used by the C10 witness. -/
def wMsg2 : ChatMessage :=
  { role := .assistant, content := "m2", timestamp := 2 }

/-- Appended message used by the C10 witness. -/
def wMsg3 : ChatMessage := { role := .user, content := "m3", timestamp := 3 }

/-- Concrete conversation store used by the C10 witness. -/
def wStore : List (String × List ChatMessage) := [("u1:s1", [wMsg1, wMsg2])]

/-- Witness for C10: a store holding two messages under the key and bound 2,
so that trimming occurs and the oldest message is discarded. -/
theorem updateHistory_trims_oldest_witness :
    ((alookup (updateHistory wStore 2 "u1" wMsg3 (some "s1"))
        (getConversationKey "u1" (some "s1"))).getD []).length ≤ 2 ∧
    ((alookup (updateHistory wStore 2 "u1" wMsg3 (some "s1"))
        (getConversationKey "u1" (some "s1"))).getD []) <:+
      ((alookup wStore (getConversationKey "u1" (some "s1"))).getD []
        ++ [wMsg3]) ∧
    (∃ k ≤ ((alookup wStore
        (getConversationKey "u1" (some "s1"))).getD []).length,
      ((alookup (updateHistory wStore 2 "u1" wMsg3 (some "s1"))
          (getConversationKey "u1" (some "s1"))).getD []) =
        ((alookup wStore
          (getConversationKey "u1" (some "s1"))).getD []).drop k
          ++ [wMsg3]) :=
  updateHistory_trims_oldest wStore 2 "u1" wMsg3 (some "s1") (by omega)

/-! ## C7 — ExecutionContext parameter enrichment
(`ExecutionContextService`) -/

/-- JavaScript `value.startsWith(pre)`, on the underlying character
lists. -/
def jsStartsWith (s pre : String) : Bool :=
  pre.data.isPrefixOf s.data

/-- JavaScript `value.substring(n)`: the characters from position `n`
on. -/
def jsSubstringFrom (s : String) (n : Nat) : String :=
  ⟨s.data.drop n⟩

/-- `ExecutionContextService.addStepResult`:
`stepResults.set(stepId, result)`. -/
def addStepResult (stepResults : List (String × JsonValue)) (stepId : String)
    (result : JsonValue) : List (String × JsonValue) :=
  aset stepResults stepId result

/-- `ExecutionContextService.getStepResult`: `stepResults.get(stepId)`,
which is the JavaScript `undefined` value on a miss. -/
def getStepResult (stepResults : List (String × JsonValue))
    (stepId : String) : JsonValue :=
  (alookup stepResults stepId).getD .undefined

/-- One iteration of the loop in
`ExecutionContextService.enrichParametersWithContext`: a string value
starting with `$step_` is looked up by the rest of its characters, and
replaced when the stored result is defined; every other value is kept. -/
def enrichValue (stepResults : List (String × JsonValue)) (v : JsonValue) :
    JsonValue :=
  match v with
  | .str s =>
    if jsStartsWith s "$step_" then
      match getStepResult stepResults (jsSubstringFrom s 6) with
      | .undefined => v
      | stepResult => stepResult
    else v
  | _ => v

/-- `ExecutionContextService.enrichParametersWithContext`: falsy or
non-object parameters are returned unchanged; an object is shallow-copied
with each string value of the form `$step_...` substituted from the
context; an array is spread into an object keyed by the decimal indices
(JavaScript `{...array}`) before the same loop runs. -/
def enrichParametersWithContext (stepResults : List (String × JsonValue))
    (parameters : JsonValue) : JsonValue :=
  match parameters with
  | .obj fields =>
    .obj (fields.map (fun kv => (kv.1, enrichValue stepResults kv.2)))
  | .arr elems =>
    .obj (elems.enum.map
      (fun p => (toString p.1, enrichValue stepResults p.2)))
  | other => other

/-- Strings starting with `$step_` are exactly the strings `$step_` ++ id,
and the substring from position 6 recovers the id. -/
theorem jsStartsWith_step_iff (s : String) :
    jsStartsWith s "$step_" = true ↔
      ∃ id : String, s = "$step_" ++ id := by
  unfold jsStartsWith
  rw [List.isPrefixOf_iff_prefix]
  constructor
  · rintro ⟨t, ht⟩
    refine ⟨⟨t⟩, String.ext ?_⟩
    rw [String.data_append]
    exact ht.symm
  · rintro ⟨id, rfl⟩
    exact ⟨id.data, (String.data_append _ _).symm⟩

/-- The substring from position 6 of `$step_` ++ id is id. -/
theorem jsSubstringFrom_step (id : String) :
    jsSubstringFrom ("$step_" ++ id) 6 = id := by
  apply String.ext
  show (("$step_" ++ id).data).drop 6 = id.data
  rw [String.data_append]
  rfl

/-- The step id named by a `$step_` string is unique. -/
theorem step_id_unique {a b : String}
    (h : ("$step_" ++ a : String) = "$step_" ++ b) : a = b := by
  apply String.ext
  have hd := congrArg String.data h
  rw [String.data_append, String.data_append] at hd
  exact List.append_cancel_left hd

/-- Per-value substitution behaviour: a value is either a `$step_<id>`
string with a defined stored result — and becomes exactly that result —
or it is returned unchanged and no defined stored result matches it. -/
theorem enrichValue_spec (stepResults : List (String × JsonValue))
    (v : JsonValue) :
    (∃ id : String, v = .str ("$step_" ++ id) ∧
      getStepResult stepResults id ≠ .undefined ∧
      enrichValue stepResults v = getStepResult stepResults id) ∨
    ((∀ id : String, v = .str ("$step_" ++ id) →
        getStepResult stepResults id = .undefined) ∧
      enrichValue stepResults v = v) := by
  match v with
  | .str s =>
    by_cases hpre : jsStartsWith s "$step_" = true
    · obtain ⟨id, rfl⟩ := (jsStartsWith_step_iff s).mp hpre
      rcases hres : getStepResult stepResults (jsSubstringFrom
          ("$step_" ++ id) 6) with _ | _ | _ | _ | _ | _ | _ <;>
        rw [jsSubstringFrom_step] at hres
      · right
        refine ⟨?_, ?_⟩
        · intro id' hid'
          obtain rfl := step_id_unique (JsonValue.str.inj hid')
          exact hres
        · simp [enrichValue, hpre, jsSubstringFrom_step, hres]
      all_goals
        left
        refine ⟨id, rfl, ?_, ?_⟩ <;>
          simp [enrichValue, hpre, jsSubstringFrom_step, hres]
    · right
      refine ⟨?_, ?_⟩
      · intro id hid
        exact absurd ((jsStartsWith_step_iff s).mpr
          ⟨id, JsonValue.str.inj hid⟩) hpre
      · simp [enrichValue, hpre]
  | .undefined => exact .inr ⟨(fun id h => nomatch h), rfl⟩
  | .null => exact .inr ⟨(fun id h => nomatch h), rfl⟩
  | .bool b => exact .inr ⟨(fun id h => nomatch h), rfl⟩
  | .num q => exact .inr ⟨(fun id h => nomatch h), rfl⟩
  | .arr l => exact .inr ⟨(fun id h => nomatch h), rfl⟩
  | .obj fs => exact .inr ⟨(fun id h => nomatch h), rfl⟩

/-- C7: enriching a tool-argument object yields an object with the same
keys in the same order, where each string value `$step_<id>` whose id has
a defined stored result in the ExecutionContext is replaced by exactly
that stored result, each `$step_<id>` value without a stored result is
left unchanged, and every other key and value is unchanged. -/
theorem enrichParameters_substitutes_step_results
    (stepResults : List (String × JsonValue))
    (fields : List (String × JsonValue)) :
    ∃ enriched : List (String × JsonValue),
      enrichParametersWithContext stepResults (.obj fields) =
        .obj enriched ∧
      List.Forall₂ (fun kv kv' : String × JsonValue =>
        kv'.1 = kv.1 ∧
        ((∃ id : String, kv.2 = .str ("$step_" ++ id) ∧
            getStepResult stepResults id ≠ .undefined ∧
            kv'.2 = getStepResult stepResults id) ∨
          ((∀ id : String, kv.2 = .str ("$step_" ++ id) →
              getStepResult stepResults id = .undefined) ∧
            kv'.2 = kv.2))) fields enriched := by
  refine ⟨_, rfl, ?_⟩
  induction fields with
  | nil => exact .nil
  | cons hd tl ih =>
    exact .cons ⟨rfl, enrichValue_spec stepResults hd.2⟩ ih

/-- Witness for C7 at a concrete context and argument object: step `s1` is
stored and substituted, step `s9` is absent and the reference is kept. -/
theorem enrichParameters_substitutes_step_results_witness :
    ∃ enriched : List (String × JsonValue),
      enrichParametersWithContext [("s1", .str "doc-42")]
          (.obj [("docId", .str "$step_s1"), ("title", .str "Notes"),
                 ("body", .str "$step_s9")]) =
        .obj enriched ∧
      List.Forall₂ (fun kv kv' : String × JsonValue =>
        kv'.1 = kv.1 ∧
        ((∃ id : String, kv.2 = .str ("$step_" ++ id) ∧
            getStepResult [("s1", .str "doc-42")] id ≠ .undefined ∧
            kv'.2 = getStepResult [("s1", .str "doc-42")] id) ∨
          ((∀ id : String, kv.2 = .str ("$step_" ++ id) →
              getStepResult [("s1", .str "doc-42")] id = .undefined) ∧
            kv'.2 = kv.2)))
        [("docId", .str "$step_s1"), ("title", .str "Notes"),
         ("body", .str "$step_s9")] enriched :=
  enrichParameters_substitutes_step_results [("s1", .str "doc-42")]
    [("docId", .str "$step_s1"), ("title", .str "Notes"),
     ("body", .str "$step_s9")]

/-! ## C2 — tool-result correlation and failure classification
(`ChatService.executeWithTools`) -/

/-- A tool call as reported by `generateText` (`toolCalls` entries). -/
structure LlmToolCall where
  toolCallId : String
  toolName : String
  args : JsonValue

/-- A tool result as reported by `generateText` (`toolResults` entries). -/
structure LlmToolResult where
  toolCallId : String
  result : JsonValue

/-- An executed tool record built by the dispatch loop. -/
structure ExecutedTool where
  toolCallId : String
  toolName : String
  args : JsonValue
  result : JsonValue

/-- JavaScript truthiness of a value. -/
def truthy (v : JsonValue) : Bool :=
  match v with
  | .undefined => false
  | .null => false
  | .bool b => b
  | .num q => q ≠ 0
  | .str s => s ≠ ""
  | .arr _ => true
  | .obj _ => true

/-- JavaScript `typeof v === "object"` (true for objects, arrays and
`null`). -/
def typeofObject (v : JsonValue) : Bool :=
  match v with
  | .null => true
  | .arr _ => true
  | .obj _ => true
  | _ => false

/-- JavaScript `"k" in v` for own properties of a plain object. -/
def hasField (v : JsonValue) (k : String) : Bool :=
  match v with
  | .obj fields => (alookup fields k).isSome
  | _ => false

/-- Property read `v.k` on a plain object. -/
def getField (v : JsonValue) (k : String) : Option JsonValue :=
  match v with
  | .obj fields => alookup fields k
  | _ => none

/-- JavaScript `v.success === false`. -/
def successIsFalse (v : JsonValue) : Bool :=
  match getField v "success" with
  | some (.bool false) => true
  | _ => false

mutual

/-- JavaScript string coercion as used by template literals.  Decimal
formatting of numbers is abstracted as the rational's `toString`. -/
def jsTemplateString : JsonValue → String
  | .undefined => "undefined"
  | .null => "null"
  | .bool true => "true"
  | .bool false => "false"
  | .num q => toString q
  | .str s => s
  | .arr elems => String.intercalate "," (jsTemplateStringList elems)
  | .obj _ => "[object Object]"

/-- String coercion of each element of an array. -/
def jsTemplateStringList : List JsonValue → List String
  | [] => []
  | v :: rest => jsTemplateString v :: jsTemplateStringList rest

end

/-- The `resultMap` of `ChatService.executeWithTools`: each reported tool
result with a truthy `toolCallId` is indexed by it. -/
def buildResultMap (toolResults : List LlmToolResult) :
    List (String × JsonValue) :=
  toolResults.foldl
    (fun m r => if r.toolCallId ≠ "" then aset m r.toolCallId r.result else m)
    []

/-- Accumulator of the tool-processing loop in
`ChatService.executeWithTools`. -/
structure ToolLoopState where
  hadToolFailure : Bool
  failedToolNames : List String
  toolExecutionDetails : List String
  executedTools : List ExecutedTool
  stepResults : List (String × JsonValue)

/-- One iteration of the loop in `ChatService.executeWithTools`: correlate
the call with its result via the result map, record the executed tool,
classify the result (an object with an `error` field, else an object with
`success === false`, else success), and add the result to the execution
context. -/
def processOneToolCall (resultMap : List (String × JsonValue))
    (acc : ToolLoopState) (toolCall : LlmToolCall) : ToolLoopState :=
  let toolCallResult := (alookup resultMap toolCall.toolCallId).getD .undefined
  let executedTool : ExecutedTool :=
    ⟨toolCall.toolCallId, toolCall.toolName, toolCall.args, toolCallResult⟩
  if truthy toolCallResult && typeofObject toolCallResult &&
      hasField toolCallResult "error" then
    { hadToolFailure := true
      failedToolNames := acc.failedToolNames ++ [toolCall.toolName]
      toolExecutionDetails := acc.toolExecutionDetails ++
        [toolCall.toolName ++ " failed: " ++
          jsTemplateString ((getField toolCallResult "error").getD .undefined)]
      executedTools := acc.executedTools ++ [executedTool]
      stepResults :=
        addStepResult acc.stepResults toolCall.toolCallId toolCallResult }
  else if truthy toolCallResult && typeofObject toolCallResult &&
      hasField toolCallResult "success" && successIsFalse toolCallResult then
    { hadToolFailure := true
      failedToolNames := acc.failedToolNames ++ [toolCall.toolName]
      toolExecutionDetails := acc.toolExecutionDetails ++
        [toolCall.toolName ++ " failed."]
      executedTools := acc.executedTools ++ [executedTool]
      stepResults :=
        addStepResult acc.stepResults toolCall.toolCallId toolCallResult }
  else
    { hadToolFailure := acc.hadToolFailure
      failedToolNames := acc.failedToolNames
      toolExecutionDetails := acc.toolExecutionDetails ++
        [toolCall.toolName ++ " succeeded."]
      executedTools := acc.executedTools ++ [executedTool]
      stepResults :=
        addStepResult acc.stepResults toolCall.toolCallId toolCallResult }

/-- The tool-processing loop of `ChatService.executeWithTools`, starting
from the request's execution context. -/
def processToolCalls (toolCalls : List LlmToolCall)
    (resultMap : List (String × JsonValue))
    (ctx : List (String × JsonValue)) : ToolLoopState :=
  toolCalls.foldl (processOneToolCall resultMap)
    { hadToolFailure := false
      failedToolNames := []
      toolExecutionDetails := []
      executedTools := []
      stepResults := ctx }

/-- The response text composed by `ChatService.executeWithTools`: the
failure template listing the failed tool names when any tool failed,
otherwise the model text or a default success sentence. -/
def composeResponseText (st : ToolLoopState) (text : String) : String :=
  if st.hadToolFailure then
    "I attempted to complete your request, but encountered issues with " ++
      "the following actions: " ++
      String.intercalate ", " st.failedToolNames ++ ". Details: " ++
      String.intercalate "; " st.toolExecutionDetails ++
      ". Please check the details for each action."
  else if text ≠ "" then text
  else "Task completed successfully using specialized tools."

/-- The failure classification exactly as the spec words it: a result is a
failure iff it is an object containing an `error` field, or an object
containing `success` equal to `false`.  Everything else — empty objects,
null/undefined, non-objects — is a success. -/
def specResultIsFailure (v : JsonValue) : Bool :=
  match v with
  | .obj fields =>
    (alookup fields "error").isSome ||
      (match alookup fields "success" with
       | some (.bool false) => true
       | _ => false)
  | _ => false

/-- The code's two-branch failure test agrees with the spec's
classification on every value. -/
theorem code_failure_check_eq_spec (v : JsonValue) :
    ((truthy v && typeofObject v && hasField v "error") ||
      (truthy v && typeofObject v && hasField v "success" &&
        successIsFalse v)) = specResultIsFailure v := by
  match v with
  | .undefined | .null | .bool _ | .num _ | .str _ | .arr _ =>
    simp [truthy, typeofObject, hasField, successIsFalse, getField,
      specResultIsFailure]
  | .obj fields =>
    simp only [truthy, typeofObject, hasField, successIsFalse, getField,
      specResultIsFailure, Bool.true_and]
    rcases h : alookup fields "success" with _ | v' <;>
      [skip; rcases v' with _ | _ | b | _ | _ | _ | _] <;>
      first
        | (rcases b with _ | _ <;> simp [h])
        | simp [h]

/-- The correlated result of a tool call: the result-map entry for its id,
or the JavaScript `undefined` on a miss. -/
def correlatedResult (resultMap : List (String × JsonValue))
    (c : LlmToolCall) : ExecutedTool :=
  ⟨c.toolCallId, c.toolName, c.args,
    (alookup resultMap c.toolCallId).getD .undefined⟩

/-- One loop iteration appends the correlated record, appends the tool name
to the failed names exactly when the spec classifies the result as a
failure, and ors that classification into the failure flag. -/
theorem processOneToolCall_spec (resultMap : List (String × JsonValue))
    (acc : ToolLoopState) (c : LlmToolCall) :
    (processOneToolCall resultMap acc c).executedTools =
      acc.executedTools ++ [correlatedResult resultMap c] ∧
    (processOneToolCall resultMap acc c).failedToolNames =
      acc.failedToolNames ++
        (if specResultIsFailure (correlatedResult resultMap c).result then
          [c.toolName] else []) ∧
    (processOneToolCall resultMap acc c).hadToolFailure =
      (acc.hadToolFailure ||
        specResultIsFailure (correlatedResult resultMap c).result) := by
  have hcls := code_failure_check_eq_spec
    ((alookup resultMap c.toolCallId).getD .undefined)
  unfold processOneToolCall correlatedResult
  by_cases h1 : (truthy ((alookup resultMap c.toolCallId).getD .undefined) &&
      typeofObject ((alookup resultMap c.toolCallId).getD .undefined) &&
      hasField ((alookup resultMap c.toolCallId).getD .undefined) "error") = true
  · rw [← hcls]
    simp [h1]
  · by_cases h2 : (truthy ((alookup resultMap c.toolCallId).getD .undefined) &&
        typeofObject ((alookup resultMap c.toolCallId).getD .undefined) &&
        hasField ((alookup resultMap c.toolCallId).getD .undefined) "success" &&
        successIsFalse ((alookup resultMap c.toolCallId).getD .undefined)) =
        true
    · rw [← hcls]
      simp [h1, h2]
    · rw [← hcls]
      simp only [Bool.not_eq_true] at h1 h2
      simp [h1, h2]

/-- The loop appends to its accumulator: executed tools are the previous
ones plus the correlated records, failed names are the previous ones plus
the names of exactly the newly failing records (per the spec
classification), and the failure flag records whether any record failed. -/
theorem processToolCalls_fold_inv (resultMap : List (String × JsonValue))
    (toolCalls : List LlmToolCall) (acc : ToolLoopState) :
    (toolCalls.foldl (processOneToolCall resultMap) acc).executedTools =
      acc.executedTools ++ toolCalls.map (correlatedResult resultMap) ∧
    (toolCalls.foldl (processOneToolCall resultMap) acc).failedToolNames =
      acc.failedToolNames ++
        ((toolCalls.map (correlatedResult resultMap)).filter
          (fun t => specResultIsFailure t.result)).map
          (fun t => t.toolName) ∧
    (toolCalls.foldl (processOneToolCall resultMap) acc).hadToolFailure =
      (acc.hadToolFailure ||
        !((toolCalls.map (correlatedResult resultMap)).filter
          (fun t => specResultIsFailure t.result)).isEmpty) := by
  induction toolCalls generalizing acc with
  | nil => simp
  | cons c rest ih =>
    obtain ⟨h1, h2, h3⟩ := processOneToolCall_spec resultMap acc c
    obtain ⟨ih1, ih2, ih3⟩ := ih (processOneToolCall resultMap acc c)
    rcases hspec : specResultIsFailure (correlatedResult resultMap c).result
        with _ | _ <;>
      rw [hspec] at h2 h3 <;>
      refine ⟨?_, ?_, ?_⟩ <;>
        simp only [List.foldl_cons, List.map_cons, List.filter_cons, hspec,
          if_true, if_false, ite_true, ite_false] <;>
        simp only [ih1, ih2, ih3, h1, h2, h3, List.append_assoc,
          List.singleton_append, List.append_nil, List.nil_append,
          List.map_cons, List.isEmpty_cons, Bool.not_false, Bool.or_true,
          Bool.true_or, Bool.or_assoc] <;>
        simp [correlatedResult]

/-- C2: in the dispatch loop every tool call is recorded with its
correlated result; the failed tool names are exactly the names of the
records whose results the spec classifies as failures — an object with an
`error` field or with `success = false`, everything else (empty objects,
null/undefined, non-objects) being a success; the failure flag is set iff
that list is non-empty; and the composed response text on failure lists
exactly those names. -/
theorem executeWithTools_failure_classification
    (toolCalls : List LlmToolCall) (toolResults : List LlmToolResult)
    (ctx : List (String × JsonValue)) (text : String) :
    (processToolCalls toolCalls (buildResultMap toolResults)
        ctx).executedTools =
      toolCalls.map (correlatedResult (buildResultMap toolResults)) ∧
    (processToolCalls toolCalls (buildResultMap toolResults)
        ctx).failedToolNames =
      (((processToolCalls toolCalls (buildResultMap toolResults)
          ctx).executedTools.filter
        (fun t => specResultIsFailure t.result)).map
        (fun t => t.toolName)) ∧
    ((processToolCalls toolCalls (buildResultMap toolResults)
        ctx).hadToolFailure = true ↔
      (processToolCalls toolCalls (buildResultMap toolResults)
        ctx).failedToolNames ≠ []) ∧
    composeResponseText
        (processToolCalls toolCalls (buildResultMap toolResults) ctx) text =
      (if (processToolCalls toolCalls (buildResultMap toolResults)
          ctx).hadToolFailure then
        "I attempted to complete your request, but encountered issues with " ++
          "the following actions: " ++
          String.intercalate ", "
            (((processToolCalls toolCalls (buildResultMap toolResults)
                ctx).executedTools.filter
              (fun t => specResultIsFailure t.result)).map
              (fun t => t.toolName)) ++ ". Details: " ++
          String.intercalate "; "
            (processToolCalls toolCalls (buildResultMap toolResults)
              ctx).toolExecutionDetails ++
          ". Please check the details for each action."
      else if text ≠ "" then text
      else "Task completed successfully using specialized tools.") := by
  obtain ⟨h1, h2, h3⟩ := processToolCalls_fold_inv (buildResultMap
    toolResults) toolCalls
    { hadToolFailure := false
      failedToolNames := []
      toolExecutionDetails := []
      executedTools := []
      stepResults := ctx }
  have he : (processToolCalls toolCalls (buildResultMap toolResults)
      ctx).executedTools =
      toolCalls.map (correlatedResult (buildResultMap toolResults)) := by
    rw [processToolCalls, h1]
    simp
  have hf : (processToolCalls toolCalls (buildResultMap toolResults)
      ctx).failedToolNames =
      (((processToolCalls toolCalls (buildResultMap toolResults)
          ctx).executedTools.filter
        (fun t => specResultIsFailure t.result)).map
        (fun t => t.toolName)) := by
    rw [he, processToolCalls, h2]
    simp
  have hh : (processToolCalls toolCalls (buildResultMap toolResults)
      ctx).hadToolFailure = true ↔
      (processToolCalls toolCalls (buildResultMap toolResults)
        ctx).failedToolNames ≠ [] := by
    rw [hf, he, processToolCalls, h3]
    simp only [Bool.false_or, ne_eq, List.map_eq_nil_iff]
    rcases hemp : ((toolCalls.map (correlatedResult
        (buildResultMap toolResults))).filter
        (fun t => specResultIsFailure t.result)) with _ | _
    · simp
    · simp
  refine ⟨he, hf, hh, ?_⟩
  rw [composeResponseText, hf]

/-- Witness call record for C2: a successful tool call. -/
def wCallOk : LlmToolCall := ⟨"call-1", "GOOGLEDOCS_CREATE_DOCUMENT", .obj
  [("title", .str "Project Proposal")]⟩

/-- Witness call record for C2: a tool call whose result carries an
`error` field. -/
def wCallErr : LlmToolCall := ⟨"call-2", "GMAIL_SEND_EMAIL", .obj []⟩

/-- Witness results for C2: the first call succeeds with an empty object,
the second fails with a rate-limit error. -/
def wResults : List LlmToolResult :=
  [⟨"call-1", .obj []⟩, ⟨"call-2", .obj [("error", .str "rate limited")]⟩]

/-- Witness for C2 at a concrete run: one empty-object success, one
`error`-field failure. -/
theorem executeWithTools_failure_classification_witness :
    (processToolCalls [wCallOk, wCallErr] (buildResultMap wResults)
        []).executedTools =
      [wCallOk, wCallErr].map (correlatedResult (buildResultMap wResults)) ∧
    (processToolCalls [wCallOk, wCallErr] (buildResultMap wResults)
        []).failedToolNames =
      (((processToolCalls [wCallOk, wCallErr] (buildResultMap wResults)
          []).executedTools.filter
        (fun t => specResultIsFailure t.result)).map
        (fun t => t.toolName)) ∧
    ((processToolCalls [wCallOk, wCallErr] (buildResultMap wResults)
        []).hadToolFailure = true ↔
      (processToolCalls [wCallOk, wCallErr] (buildResultMap wResults)
        []).failedToolNames ≠ []) ∧
    composeResponseText
        (processToolCalls [wCallOk, wCallErr] (buildResultMap wResults) [])
        "" =
      (if (processToolCalls [wCallOk, wCallErr] (buildResultMap wResults)
          []).hadToolFailure then
        "I attempted to complete your request, but encountered issues with " ++
          "the following actions: " ++
          String.intercalate ", "
            (((processToolCalls [wCallOk, wCallErr]
                (buildResultMap wResults) []).executedTools.filter
              (fun t => specResultIsFailure t.result)).map
              (fun t => t.toolName)) ++ ". Details: " ++
          String.intercalate "; "
            (processToolCalls [wCallOk, wCallErr] (buildResultMap wResults)
              []).toolExecutionDetails ++
          ". Please check the details for each action."
      else if ("" : String) ≠ "" then ""
      else "Task completed successfully using specialized tools.") :=
  executeWithTools_failure_classification [wCallOk, wCallErr] wResults [] ""

/-! ## C9 — LLM router catalog filtering (`LlmRouterService`,
`top-tools.registry.ts`) -/

/-- The static per-app top-tools catalog (`TOP_TOOLS_REGISTRY` in
`top-tools.registry.ts`): app name to a map of tool name to
description. -/
def TOP_TOOLS_REGISTRY : List (String × List (String × String)) :=
  [
   ("GMAIL", [
     ("GMAIL_SEND_EMAIL",
      "Sends an email via gmail api using the authenticated user\x27" ++
        "s google profile display name, requiring is html=true if t" ++
        "he body contains html and valid s3key, mimetype, name for " ++
        "any attachment."),
     ("GMAIL_FETCH_EMAILS",
      "Fetches a list of email messages from a gmail account, sup" ++
        "porting filtering, pagination, and optional full content r" ++
        "etrieval."),
     ("GMAIL_CREATE_EMAIL_DRAFT",
      "Creates a gmail email draft, supporting to/cc/bcc, subject" ++
        ", plain/html body (ensure is html=true for html), attachme" ++
        "nts, and threading."),
     ("GMAIL_REPLY_TO_THREAD",
      "Sends a reply within a specific gmail thread using the ori" ++
        "ginal thread\x27s subject, requiring a valid thread id and" ++
        " correctly formatted email addresses."),
     ("GMAIL_FETCH_MESSAGE_BY_THREAD_ID",
      "Retrieves messages from a gmail thread using its thread id" ++
        ", where the thread must be accessible by the specified use" ++
        "r id."),
     ("GMAIL_SEND_DRAFT",
      "Sends the specified, existing draft to the recipients in t" ++
        "he to, cc, and bcc headers."),
     ("GMAIL_ADD_LABEL_TO_EMAIL",
      "Adds and/or removes specified gmail labels for a message; " ++
        "ensure message id and all label ids are valid (use \x27lis" ++
        "tlabels\x27 for custom label ids)."),
     ("GMAIL_GET_CONTACTS",
      "Fetches contacts (connections) for the authenticated googl" ++
        "e account, allowing selection of specific data fields and " ++
        "pagination."),
     ("GMAIL_SEARCH_PEOPLE",
      "Searches contacts by matching the query against names, nic" ++
        "knames, emails, phone numbers, and organizations, optional" ++
        "ly including \x27other contacts\x27."),
     ("GMAIL_MOVE_TO_TRASH",
      "Moves an existing, non-deleted email message to the trash " ++
        "for the specified user.")]),
   ("GOOGLECALENDAR", [
     ("GOOGLECALENDAR_CREATE_EVENT",
      "Creates an event on a google calendar, needing rfc3339 utc" ++
        " start/end times (end after start) and write access to the" ++
        " calendar."),
     ("GOOGLECALENDAR_EVENTS_LIST", "Returns events on the specified calendar."),
     ("GOOGLECALENDAR_FIND_EVENT",
      "Finds events in a specified google calendar using text que" ++
        "ry, time ranges (event start/end, last modification), and " ++
        "event types; ensure `timemin` is not chronologically after" ++
        " `timemax` if both are provided."),
     ("GOOGLECALENDAR_PATCH_EVENT",
      "Updates specified fields of an existing event in a google " ++
        "calendar using patch semantics (array fields like `attende" ++
        "es` are fully replaced if provided); ensure the `calendar " ++
        "id` and `event id` are valid and the user has write access" ++
        " to the calendar."),
     ("GOOGLECALENDAR_DELETE_EVENT",
      "Deletes a specified event by `event id` from a google cale" ++
        "ndar (`calendar id`); this action is idempotent and raises" ++
        " a 404 error if the event is not found."),
     ("GOOGLECALENDAR_FIND_FREE_SLOTS",
      "Finds free/busy time slots in google calendars for specifi" ++
        "ed calendars within a defined time range (defaults to the " ++
        "current day utc if `time min`/`time max` are omitted), enh" ++
        "ancing busy intervals with event details; `time min` must " ++
        "precede `time max` if both are provided."),
     ("GOOGLECALENDAR_QUICK_ADD",
      "Parses natural language text to quickly create a basic goo" ++
        "gle calendar event with its title, date, and time, suitabl" ++
        "e for simple scheduling; does not support recurring events" ++
        " or direct attendee addition via parameters, and `calendar" ++
        " id` must be valid if not \x27primary\x27."),
     ("GOOGLECALENDAR_LIST_CALENDARS",
      "Retrieves calendars from the user\x27s google calendar lis" ++
        "t, with options for pagination and filtering."),
     ("GOOGLECALENDAR_GET_CURRENT_DATE_TIME",
      "Gets the current date and time, allowing for a specific ti" ++
        "mezone offset."),
     ("GOOGLECALENDAR_REPLY_TO_THREAD",
      "Sends a reply within a specific gmail thread using the ori" ++
        "ginal thread\x27s subject, requiring a valid `thread id` a" ++
        "nd correctly formatted email addresses.")]),
   ("GOOGLEDRIVE", [
     ("GOOGLEDRIVE_CREATE_FILE_FROM_TEXT",
      "Creates a new file in google drive from provided text cont" ++
        "ent (up to 10mb), supporting various formats including aut" ++
        "omatic conversion to google workspace types."),
     ("GOOGLEDRIVE_UPLOAD_FILE",
      "Uploads a file (max 5mb) to google drive, moving it to a s" ++
        "pecified folder if a valid folder id is provided, otherwis" ++
        "e uploads to root."),
     ("GOOGLEDRIVE_LIST_FILES",
      "Tool to list a user\x27s files and folders in google drive" ++
        ". use this to search or browse for files and folders based" ++
        " on various criteria."),
     ("GOOGLEDRIVE_DOWNLOAD_FILE",
      "Downloads a file from google drive by its id, optionally e" ++
        "xporting google workspace documents (docs, sheets, slides)" ++
        " to a specified `mime type`; for other file types, `mime t" ++
        "ype` must be omitted."),
     ("GOOGLEDRIVE_FIND_FILE",
      "Tool to list or search for files and folders in google dri" ++
        "ve. use when you need to find specific files based on quer" ++
        "y criteria or list contents of a drive/folder."),
     ("GOOGLEDRIVE_EDIT_FILE",
      "Updates an existing google drive file by overwriting its e" ++
        "ntire content with new text (max 10mb)."),
     ("GOOGLEDRIVE_CREATE_FOLDER",
      "Creates a new folder in google drive, optionally within a " ++
        "parent folder specified by its id or name; if a parent nam" ++
        "e is provided but not found, the action will fail."),
     ("GOOGLEDRIVE_ADD_FILE_SHARING_PREFERENCE",
      "Modifies sharing permissions for an existing google drive " ++
        "file, granting a specified role to a user, group, domain, " ++
        "or \x27anyone\x27."),
     ("GOOGLEDRIVE_MOVE_FILE",
      "Tool to move a file from one folder to another in google d" ++
        "rive. use when you need to reorganize files by changing th" ++
        "eir parent folder(s)."),
     ("GOOGLEDRIVE_GOOGLE_DRIVE_DELETE_FOLDER_OR_FILE_ACTION",
      "Tool to delete a file or folder in google drive. use when " ++
        "you need to permanently remove a specific file or folder u" ++
        "sing its id. note: this action is irreversible.")]),
   ("GOOGLEDOCS", [
     ("GOOGLEDOCS_CREATE_DOCUMENT",
      "Creates a new google docs document using the provided titl" ++
        "e as filename and inserts the initial text at the beginnin" ++
        "g if non-empty, returning the document\x27s id and metadat" ++
        "a (excluding body content)."),
     ("GOOGLEDOCS_GET_DOCUMENT_BY_ID",
      "Retrieves an existing google document by its id; will erro" ++
        "r if the document is not found."),
     ("GOOGLEDOCS_INSERT_TEXT_ACTION",
      "Tool to insert a string of text at a specified location wi" ++
        "thin a google document. use when you need to add new text " ++
        "content to an existing document."),
     ("GOOGLEDOCS_REPLACE_ALL_TEXT",
      "Tool to replace all occurrences of a specified text string" ++
        " with another text string throughout a google document. us" ++
        "e when you need to perform a global find and replace opera" ++
        "tion within a document."),
     ("GOOGLEDOCS_UPDATE_EXISTING_DOCUMENT",
      "Applies programmatic edits, such as text insertion, deleti" ++
        "on, or formatting, to a specified google doc using the `ba" ++
        "tchupdate` api method."),
     ("GOOGLEDOCS_SEARCH_DOCUMENTS",
      "Search for google documents using various filters includin" ++
        "g name, content, date ranges, and more."),
     ("GOOGLEDOCS_CREATE_DOCUMENT_MARKDOWN",
      "Creates a new google docs document, optionally initializin" ++
        "g it with a title and content provided as markdown text."),
     ("GOOGLEDOCS_UPDATE_DOCUMENT_MARKDOWN",
      "Replaces the entire content of an existing google docs doc" ++
        "ument with new markdown text; requires edit permissions fo" ++
        "r the document."),
     ("GOOGLEDOCS_DELETE_CONTENT_RANGE",
      "Tool to delete a range of content from a google document. " ++
        "use when you need to remove a specific portion of text or " ++
        "other structural elements within a document."),
     ("GOOGLEDOCS_COPY_DOCUMENT",
      "Tool to create a copy of an existing google document. use " ++
        "this to duplicate a document, for example, when using an e" ++
        "xisting document as a template. the copied document will h" ++
        "ave a default title (e.g., \x27copy of [original title]\x27" ++
        ") if no new title is provided, and will be placed in the u" ++
        "ser\x27s root google drive folder.")]),
   ("NOTION", [
     ("NOTION_CREATE_NOTION_PAGE", "Creates a new page in a notion workspace."),
     ("NOTION_ADD_PAGE_CONTENT",
      "Appends a single content block to a notion page or a paren" ++
        "t block (must be page, toggle, to-do, bulleted/numbered li" ++
        "st, callout, or quote); invoke repeatedly to add multiple " ++
        "blocks."),
     ("NOTION_QUERY_DATABASE",
      "Queries a notion database for pages (rows), where rows are" ++
        " pages and columns are properties; ensure sort property na" ++
        "mes correspond to existing database properties."),
     ("NOTION_INSERT_ROW_DATABASE", "Creates a new page (row) in a specified notion database."),
     ("NOTION_UPDATE_ROW_DATABASE",
      "Updates or archives an existing notion database row (page)" ++
        " using its `row id`, allowing modification of its icon, co" ++
        "ver, and/or properties; ensure the target page is accessib" ++
        "le and property details (names/ids and values) align with " ++
        "the database schema and specified formats."),
     ("NOTION_SEARCH_NOTION_PAGE",
      "Searches notion pages and databases by title; an empty que" ++
        "ry lists all accessible items, useful for discovering ids " ++
        "or as a fallback when a specific query yields no results."),
     ("NOTION_FETCH_NOTION_BLOCK",
      "Retrieves a notion block (or page, as pages are blocks) us" ++
        "ing its valid uuid; if the block has children, use a separ" ++
        "ate action to fetch them."),
     ("NOTION_FETCH_NOTION_CHILD_BLOCK",
      "Retrieves a paginated list of direct, first-level child bl" ++
        "ock objects for a given parent notion block or page id; us" ++
        "e block ids from the response for subsequent calls to acce" ++
        "ss deeply nested content."),
     ("NOTION_NOTION_UPDATE_BLOCK",
      "Updates an existing notion block\x27s textual content or t" ++
        "ype-specific properties (e.g., \x27checked\x27 status, \x27" ++
        "color\x27), using its `block id` and the specified `block " ++
        "type`."),
     ("NOTION_DELETE_BLOCK",
      "Archives a notion block, page, or database using its id, w" ++
        "hich sets its \x27archived\x27 property to true (like movi" ++
        "ng to \"trash\" in the ui) and allows it to be restored la" ++
        "ter.")])]

/-- `getTopToolDescriptionsForApp`: the app\x27s top-tools map, or an empty
map when the app is not in the registry. -/
def getTopToolDescriptionsForApp (appName : String) :
    List (String × String) :=
  (alookup TOP_TOOLS_REGISTRY appName).getD []

/-- `getAllAvailableAppNames`: the keys of the registry. -/
def getAllAvailableAppNames : List String :=
  TOP_TOOLS_REGISTRY.map (fun p => p.1)

/-- The router\x27s structured LLM output (`llmRoutingSchema`). -/
structure LLMRoutingResponse where
  appNames : List String
  toolNames : List String
deriving DecidableEq, Repr

/-- `LlmRouterService.routeAppsWithLLM`: the structured LLM call is an
oracle; on success its two arrays are filtered against the registry — app
names must be registry keys, tool names must be present in some app\x27s
top-tools map; on failure an `InternalServerErrorException` is thrown
(modelled as `Except.error`). -/
def routeAppsWithLLM (llmCall : Except Unit LLMRoutingResponse) :
    Except Unit LLMRoutingResponse :=
  match llmCall with
  | .error _ => .error ()
  | .ok object =>
    .ok { appNames := object.appNames.filter
            (fun name => getAllAvailableAppNames.contains name)
          toolNames := object.toolNames.filter
            (fun toolName => getAllAvailableAppNames.any
              (fun appName =>
                (alookup (getTopToolDescriptionsForApp appName)
                  toolName).isSome)) }

/-- C9: whatever the language model produced, every app name the router
returns is a key of the static top-tools catalog, and every tool name it
returns appears in some catalog app\x27s top-tools entries. -/
theorem routeAppsWithLLM_returns_catalog_names
    (llmCall : Except Unit LLMRoutingResponse) (r : LLMRoutingResponse)
    (h : routeAppsWithLLM llmCall = .ok r) :
    (∀ name ∈ r.appNames, name ∈ getAllAvailableAppNames) ∧
    (∀ toolName ∈ r.toolNames, ∃ appName ∈ getAllAvailableAppNames,
      (alookup (getTopToolDescriptionsForApp appName) toolName).isSome) :=
  by
  match llmCall with
  | .error _ => simp [routeAppsWithLLM] at h
  | .ok object =>
    simp only [routeAppsWithLLM] at h
    obtain rfl := (Except.ok.inj h).symm
    constructor
    · intro name hmem
      rw [List.mem_filter] at hmem
      simpa using hmem.2
    · intro toolName hmem
      rw [List.mem_filter] at hmem
      have := hmem.2
      rw [List.any_eq_true] at this
      obtain ⟨appName, happ, hsome⟩ := this
      exact ⟨appName, happ, hsome⟩

/-- Witness for C9: the model proposes one catalog app and one unknown app,
one catalog tool and one unknown tool; the router keeps only the catalog
entries. -/
theorem routeAppsWithLLM_returns_catalog_names_witness :
    (∀ name ∈ (LLMRoutingResponse.mk ["GMAIL"] ["GMAIL_SEND_EMAIL"]).appNames,
      name ∈ getAllAvailableAppNames) ∧
    (∀ toolName ∈
        (LLMRoutingResponse.mk ["GMAIL"] ["GMAIL_SEND_EMAIL"]).toolNames,
      ∃ appName ∈ getAllAvailableAppNames,
        (alookup (getTopToolDescriptionsForApp appName) toolName).isSome) :=
  routeAppsWithLLM_returns_catalog_names
    (.ok ⟨["GMAIL", "SLACKBOT"], ["GMAIL_SEND_EMAIL", "SLACKBOT_POST"]⟩)
    ⟨["GMAIL"], ["GMAIL_SEND_EMAIL"]⟩ rfl


/-! ## C6 — best-effort persistence (`DatabaseIntegrationService`,
`ChatService.updateConversationHistory`) -/

/-- Database context produced by
`DatabaseIntegrationService.initializeContext`. -/
structure DatabaseContext where
  userId : String
  sessionId : Option String := none
  conversationId : Option String := none

/-- The chat response returned by dispatch (`ChatResponse` in
`chat.interfaces.ts`). -/
structure ChatResponse where
  response : String
  executedTools : List ExecutedTool := []
  requiredConnections : List String := []
  conversationHistory : List ChatMessage := []
  analysis : Option ComprehensiveAnalysis := none

/-- `DatabaseIntegrationService.saveUserMessage`: wraps
`MessageDbService.saveMessageToSession`, which returns null on a failed
write, and throws in that case. -/
def saveUserMessage (savedMessageId : Option String) : Except Unit String :=
  match savedMessageId with
  | some id => .ok id
  | none => .error ()

/-- `DatabaseIntegrationService.saveAssistantResponse`: same wrapping for
the assistant message write. -/
def saveAssistantResponse (savedMessageId : Option String) :
    Except Unit String :=
  match savedMessageId with
  | some id => .ok id
  | none => .error ()

/-- `DatabaseIntegrationService.updateSessionSummary`: the store write may
fail, but the failure is caught and only logged. -/
def updateSessionSummary (dbWrite : Except Unit Unit) : Except Unit Unit :=
  match dbWrite with
  | .ok _ => .ok ()
  | .error _ => .ok ()

/-- `DatabaseIntegrationService.completeConversationFlow`: resolve the
conversation, write the user message, write the assistant message, update
the summaries — and catch every error, so the chat flow is never broken by
a persistence failure.  The fallible steps are oracle parameters. -/
def completeConversationFlow (context : DatabaseContext)
    (getConv : Except Unit String)
    (userSave assistantSave : Option String)
    (hasAnalysis : Bool) (summaryWrite : Except Unit Unit) :
    Except Unit Unit :=
  let flow : Except Unit Unit := do
    let _ ← match context.conversationId with
      | some cid => Except.ok cid
      | none => getConv
    let _ ← saveUserMessage userSave
    let _ ← saveAssistantResponse assistantSave
    if hasAnalysis then
      updateSessionSummary summaryWrite
    else
      Except.ok ()
  match flow with
  | .ok _ => .ok ()
  | .error _ => .ok ()

/-- `ChatService.updateConversationHistory`: re-derive the database context
and run the conversation flow; any error escaping these steps is rethrown
as a save failure. -/
def updateConversationHistory (initCtx : Except Unit DatabaseContext)
    (getConv : Except Unit String)
    (userSave assistantSave : Option String)
    (hasAnalysis : Bool) (summaryWrite : Except Unit Unit) :
    Except Unit Unit :=
  match initCtx with
  | .error _ => .error ()
  | .ok context =>
    completeConversationFlow context getConv userSave assistantSave
      hasAnalysis summaryWrite

/-- Phase 3 of `ChatService.processChat`: run the history update and then
return the already-computed dispatch result; an escaping error fails the
request instead. -/
def processChatPersistencePhase (finalResponse : ChatResponse)
    (initCtx : Except Unit DatabaseContext)
    (getConv : Except Unit String)
    (userSave assistantSave : Option String)
    (hasAnalysis : Bool) (summaryWrite : Except Unit Unit) :
    Except Unit ChatResponse :=
  match updateConversationHistory initCtx getConv userSave assistantSave
      hasAnalysis summaryWrite with
  | .ok _ => .ok finalResponse
  | .error _ => .error ()

/-- C6: once dispatch has produced a response and the database context is
re-derived, no failure of the persistence writes — user message, assistant
message, or session summary (nor of the conversation lookup) — fails the
turn: the already-computed dispatch result is still returned. -/
theorem persistence_failure_preserves_dispatch_result
    (finalResponse : ChatResponse) (context : DatabaseContext)
    (getConv : Except Unit String)
    (userSave assistantSave : Option String)
    (hasAnalysis : Bool) (summaryWrite : Except Unit Unit) :
    processChatPersistencePhase finalResponse (.ok context) getConv
        userSave assistantSave hasAnalysis summaryWrite =
      .ok finalResponse := by
  unfold processChatPersistencePhase updateConversationHistory
    completeConversationFlow
  obtain ⟨uId, sId, convId⟩ := context
  rcases convId with _ | cid <;>
    rcases getConv with _ | gid <;>
    rcases userSave with _ | uid <;>
    rcases assistantSave with _ | aid <;>
    rcases hasAnalysis with _ | _ <;>
    rcases summaryWrite with _ | _ <;>
    rfl

/-! ## C8 — message-history caching (`MessageDbService`) -/

/-- The message-history cache key `messages:` sessionId `:` limit. -/
def messagesCacheKey (sessionId : String) (limit : Nat) : String :=
  "messages:" ++ sessionId ++ ":" ++ toString limit

/-- `MessageDbService.getMessagesForSession`: return the cached list when
present; otherwise read the latest `limit` messages of the session's
conversation (newest-first query, reversed to chronological order), cache
them when non-empty, and return them.  `db` is the session's stored
message list in chronological order; the result pairs the returned
messages with the cache after the call. -/
def getMessagesForSession (sessionId : String) (limit : Nat)
    (db : List ChatMessage) (cache : List (String × List ChatMessage)) :
    List ChatMessage × List (String × List ChatMessage) :=
  match alookup cache (messagesCacheKey sessionId limit) with
  | some cached => (cached, cache)
  | none =>
    let messages := (db.reverse.take limit).reverse
    if messages.isEmpty then ([], cache)
    else (messages, aset cache (messagesCacheKey sessionId limit) messages)

/-- `MessageDbService.saveMessageToSession` (successful write): append the
message to the session's conversation and invalidate the message cache —
the code deletes only the key `messages:` sessionId `:10`. -/
def saveMessageToSession (sessionId : String) (db : List ChatMessage)
    (cache : List (String × List ChatMessage)) (message : ChatMessage) :
    List ChatMessage × List (String × List ChatMessage) :=
  (db ++ [message], adelete cache (messagesCacheKey sessionId 10))

/-- First message of the C8 scenario. -/
def mA : ChatMessage := { role := .user, content := "hello", timestamp := 1 }

/-- Second (appended) message of the C8 scenario. -/
def mB : ChatMessage :=
  { role := .assistant, content := "hi there", timestamp := 2 }

/-- C8 fails on the code: with the pipeline's history limit 50 (the
`ChatService.processChat` default), a read populates the cache at key
`messages:s1:50`; appending a message deletes only `messages:s1:10`, so
the next read at limit 50 is a cache hit that returns the stale list
without the newly written message. -/
theorem saveMessage_leaves_limit50_cache_stale :
    (saveMessageToSession "s1"
        (getMessagesForSession "s1" 50 [mA] []).1
        (getMessagesForSession "s1" 50 [mA] []).2 mB).1 = [mA, mB] ∧
    alookup
        (saveMessageToSession "s1"
          (getMessagesForSession "s1" 50 [mA] []).1
          (getMessagesForSession "s1" 50 [mA] []).2 mB).2
        (messagesCacheKey "s1" 50) = some [mA] ∧
    (getMessagesForSession "s1" 50
        (saveMessageToSession "s1"
          (getMessagesForSession "s1" 50 [mA] []).1
          (getMessagesForSession "s1" 50 [mA] []).2 mB).1
        (saveMessageToSession "s1"
          (getMessagesForSession "s1" 50 [mA] []).1
          (getMessagesForSession "s1" 50 [mA] []).2 mB).2).1 = [mA] ∧
    [mA] ≠ [mA, mB] := by
  refine ⟨rfl, rfl, rfl, ?_⟩
  intro h
  exact absurd (congrArg List.length h) (by decide)

/-! ## C3, C4 — tool preparation (`ToolPreparationService`) -/

/-- Status of a stored `AppConnection` (Prisma enum
`AppConnectionStatus`). -/
inductive AppConnectionStatus where
  | INITIATED | ACTIVE | INACTIVE | FAILED | EXPIRED
deriving DecidableEq, Repr

/-- A stored app connection row, as read by
`AppConnectionDbService.getConnection` (the fields the preparation path
uses). -/
structure AppConnection where
  accountId : String
  status : AppConnectionStatus
deriving DecidableEq, Repr

/-- The external collaborators of
`ToolPreparationService.prepareToolsForExecution` for one request (fixed
user and query), as oracles: the routing cache and router, the connection
row lookup, the broker connection-status cache and fetch (the broker
reports a status string), the tool-search cache and vector search, and the
broker tool fetch.  `Except.error` models a thrown/rejected call. -/
structure PrepEnv where
  cachedAppRouting : Option (List String)
  routeApps : Except Unit (List String)
  dbConnection : String → Option AppConnection
  cachedConnectionStatus : String → Option String
  brokerConnectionStatus : String → Except Unit String
  cachedToolSearch : String → Option (List String)
  pineconeSearch : String → Except Unit (List String)
  getComposioTool : List String → Except Unit (List (String × JsonValue))

/-- `ToolPreparationService.getConnectedAccountIdForUserAndApp`: the stored
connection's account id, but only when the stored row exists and its
status is exactly `ACTIVE`. -/
def getConnectedAccountIdForUserAndApp (env : PrepEnv) (appName : String) :
    Option String :=
  match env.dbConnection appName with
  | some connection =>
    if connection.status = .ACTIVE then some connection.accountId else none
  | none => none

/-- The broker connection status used by the per-app check: the cached
status when present, else the broker fetch (which may fail). -/
def effectiveConnectionStatus (env : PrepEnv) (connectedAccountId : String) :
    Except Unit String :=
  match env.cachedConnectionStatus connectedAccountId with
  | some status => .ok status
  | none => env.brokerConnectionStatus connectedAccountId

/-- Outcome of one app's preparation task inside the fan-out. -/
inductive AppPrepOutcome where
  | needsConnection
  | skipped
  | fetched (tools : List (String × JsonValue))

/-- One app's preparation task (the async closure inside
`prepareToolsForExecution`): resolve the stored connection (pushing the
app to `appsNeedingConnection` when unusable), check the broker status
(also pushing when outside INITIATED/ACTIVE; a failed status fetch rejects
the task), choose the tools — router-prefixed names first, else cached or
vector search — and fetch their descriptors (a failed fetch yields
nothing). -/
def processApp (env : PrepEnv) (initialToolNames : List String)
    (appName : String) : AppPrepOutcome :=
  match getConnectedAccountIdForUserAndApp env appName with
  | none => .needsConnection
  | some connectedAccountId =>
    match effectiveConnectionStatus env connectedAccountId with
    | .error _ => .skipped
    | .ok connectionStatus =>
      if connectionStatus ≠ "INITIATED" ∧ connectionStatus ≠ "ACTIVE" then
        .needsConnection
      else
        let specificToolsFromRouting := initialToolNames.filter
          (fun t => jsStartsWith t (appName ++ "_"))
        let toolsToFetchForApp :=
          if specificToolsFromRouting.length > 0 then
            specificToolsFromRouting
          else
            match env.cachedToolSearch appName with
            | some relevantTools => relevantTools
            | none =>
              match env.pineconeSearch appName with
              | .ok relevantTools => relevantTools
              | .error _ => []
        if toolsToFetchForApp.length > 0 then
          match env.getComposioTool toolsToFetchForApp with
          | .ok tools => .fetched tools
          | .error _ => .skipped
        else .skipped

/-- JavaScript object spread `{...acc, ...tools}`: later keys
overwrite. -/
def objSpread (acc tools : List (String × JsonValue)) :
    List (String × JsonValue) :=
  tools.foldl (fun m kv => aset m kv.1 kv.2) acc

/-- Stable insertion step for the descending priority sort (the JavaScript
`sort((a, b) => b.priority - a.priority)`): a new element goes after
existing elements of equal priority. -/
def insertByPriorityDesc (x : String × ℚ) :
    List (String × ℚ) → List (String × ℚ)
  | [] => [x]
  | y :: ys =>
    if x.2 > y.2 then x :: y :: ys else y :: insertByPriorityDesc x ys

/-- Stable descending sort by priority. -/
def sortByPriorityDesc (l : List (String × ℚ)) : List (String × ℚ) :=
  l.foldl (fun acc x => insertByPriorityDesc x acc) []

/-- Priority attached to an app:
`toolPriorities.find(p => p.appName === app)?.priority || 5` — a missing
entry, and a zero priority (JavaScript `||`), default to 5. -/
def appPriority (toolPriorities : List ToolPriority) (app : String) : ℚ :=
  match toolPriorities.find? (fun p => p.appName = app) with
  | some p => if p.priority = 0 then 5 else p.priority
  | none => 5

/-- The candidate app list: the cached routing when present, else the
router's app names, else — on a router error — the analysis
recommendations. -/
def routedAppNames (env : PrepEnv) (analysis : ComprehensiveAnalysis) :
    List String :=
  match env.cachedAppRouting with
  | some cached => cached
  | none =>
    match env.routeApps with
    | .ok routedApps => routedApps
    | .error _ => analysis.recommendedApps

/-- The top-3 apps by priority (`sort` descending then `slice(0, 3)`). -/
def prioritizedApps (env : PrepEnv) (analysis : ComprehensiveAnalysis) :
    List String :=
  ((sortByPriorityDesc ((routedAppNames env analysis).map
    (fun app => (app, appPriority analysis.toolPriorities app)))).take 3).map
    (fun p => p.1)

/-- `ToolPreparationService.prepareToolsForExecution`: empty
recommendations short-circuit; otherwise the top-3 prioritized candidate
apps are each processed (the parallel fan-out is modelled in list order —
the claims under study are order-insensitive), the fetched tool maps are
spread together, and the apps that failed a connection check are returned
as `requiredConnections`. -/
def prepareToolsForExecution (env : PrepEnv)
    (analysis : ComprehensiveAnalysis) (initialToolNames : List String) :
    List (String × JsonValue) × List String :=
  if analysis.recommendedApps.length = 0 then ([], [])
  else
    let outcomes := (prioritizedApps env analysis).map
      (fun appName => (appName, processApp env initialToolNames appName))
    let fetchedComposioTools := outcomes.foldl
      (fun acc o =>
        match o.2 with
        | .fetched tools => objSpread acc tools
        | _ => acc) []
    let appsNeedingConnection := outcomes.filterMap
      (fun o =>
        match o.2 with
        | .needsConnection => some o.1
        | _ => none)
    (fetchedComposioTools, appsNeedingConnection)

/-- A concrete analysis for the preparation scenarios: high confidence,
tool execution required, `GMAIL` recommended, no explicit priorities. -/
def wAnalysis : ComprehensiveAnalysis where
  queryAnalysis := "User wants to send an email"
  isQueryClear := true
  confidenceScore := 0.9
  requiresToolExecution := true
  executionSteps := []
  estimatedComplexity := .low
  requiresSequentialExecution := false
  needsInfoGathering := false
  missingInformation := []
  searchQueries := []
  clarificationNeeded := []
  canProceedWithDefaults := true
  conversationSummary :=
    { currentIntent := "send an email"
      contextualDetails :=
        { gatheredInformation := []
          missingInformation := []
          userPreferences := []
          previousActions := [] }
      conversationState := .ready_to_execute
      keyEntities := []
      nextExpectedAction := "execute"
      topicShifts := [] }
  recommendedApps := ["GMAIL"]
  toolPriorities := []

/-- Environment for the C3 counterexample: the routing cache names `GMAIL`,
and the user's stored GMAIL connection is in status `INITIATED`. -/
def c3Env : PrepEnv where
  cachedAppRouting := some ["GMAIL"]
  routeApps := .error ()
  dbConnection := fun app =>
    if app = "GMAIL" then
      some { accountId := "acct-1", status := .INITIATED }
    else none
  cachedConnectionStatus := fun _ => none
  brokerConnectionStatus := fun _ => .ok "ACTIVE"
  cachedToolSearch := fun _ => none
  pineconeSearch := fun _ => .ok []
  getComposioTool := fun _ => .error ()

/-- C3 counterexample: a stored `INITIATED` AppConnection is not treated as
usable — the app is skipped and reported in `requiredConnections`, contrary
to the claim that only a missing connection or one outside
INITIATED/ACTIVE is reported. -/
theorem initiated_db_connection_reported_as_required :
    c3Env.dbConnection "GMAIL" =
      some { accountId := "acct-1", status := .INITIATED } ∧
    (prepareToolsForExecution c3Env wAnalysis []).2 = ["GMAIL"] :=
  ⟨rfl, rfl⟩

/-- Characterization of the per-app connection gate of `processApp`. -/
theorem processApp_needsConnection_char (env : PrepEnv)
    (initialToolNames : List String) (appName : String) :
    processApp env initialToolNames appName = .needsConnection ↔
      ((∀ conn : AppConnection, env.dbConnection appName = some conn →
          conn.status ≠ .ACTIVE) ∨
        (∃ (conn : AppConnection) (status : String),
          env.dbConnection appName = some conn ∧
          conn.status = .ACTIVE ∧
          effectiveConnectionStatus env conn.accountId = .ok status ∧
          status ≠ "INITIATED" ∧ status ≠ "ACTIVE")) := by
  unfold processApp getConnectedAccountIdForUserAndApp
  rcases hdb : env.dbConnection appName with _ | conn
  · simp
  · by_cases hact : conn.status = .ACTIVE
    · simp only [hact, if_pos]
      rcases hst : effectiveConnectionStatus env conn.accountId with _ | st
      · constructor
        · intro hcontr
          cases hcontr
        · rintro (hall | ⟨c, s, hc, hcact, heff, hs⟩)
          · exact absurd hact (hall conn rfl)
          · obtain rfl := Option.some.inj hc
            rw [heff] at hst
            cases hst
      · dsimp only
        by_cases hcond : st ≠ "INITIATED" ∧ st ≠ "ACTIVE"
        · rw [if_pos hcond]
          constructor
          · intro _
            exact .inr ⟨conn, st, rfl, hact, hst, hcond.1, hcond.2⟩
          · intro _
            rfl
        · rw [if_neg hcond]
          have hne : ∀ ts : List String,
              (if ts.length > 0 then
                match env.getComposioTool ts with
                | .ok tools => AppPrepOutcome.fetched tools
                | .error _ => AppPrepOutcome.skipped
              else AppPrepOutcome.skipped) ≠ .needsConnection := by
            intro ts
            split
            · rcases env.getComposioTool ts with _ | tools <;> simp
            · simp
          constructor
          · intro hcontr
            exact absurd hcontr (hne _)
          · rintro (hall | ⟨c, s, hc, hcact, heff, hs1, hs2⟩)
            · exact absurd hact (hall conn rfl)
            · obtain rfl := Option.some.inj hc
              rw [heff] at hst
              obtain rfl := Except.ok.inj hst
              exact absurd ⟨hs1, hs2⟩ hcond
    · simp only [if_neg hact]
      constructor
      · intro _
        exact .inl (fun c hc => (Option.some.inj hc) ▸ hact)
      · intro _
        trivial

/-- C3 amended: an app in the processed list is reported in
`requiredConnections` iff its stored AppConnection is missing or not
`ACTIVE`, or it is `ACTIVE` but the broker-reported status (resolved from
cache or broker) is outside INITIATED/ACTIVE; the INITIATED leniency
applies only to the broker-reported status, never to the stored
AppConnection row. -/
theorem app_needs_connection_iff (env : PrepEnv)
    (initialToolNames : List String) (appName : String) :
    processApp env initialToolNames appName = .needsConnection ↔
      ((∀ conn : AppConnection, env.dbConnection appName = some conn →
          conn.status ≠ .ACTIVE) ∨
        (∃ (conn : AppConnection) (status : String),
          env.dbConnection appName = some conn ∧
          conn.status = .ACTIVE ∧
          effectiveConnectionStatus env conn.accountId = .ok status ∧
          status ≠ "INITIATED" ∧ status ≠ "ACTIVE")) :=
  processApp_needsConnection_char env initialToolNames appName

/-- Witness for the C3 amended characterization at the concrete INITIATED
environment. -/
theorem app_needs_connection_iff_witness :
    processApp c3Env [] "GMAIL" = .needsConnection ↔
      ((∀ conn : AppConnection, c3Env.dbConnection "GMAIL" = some conn →
          conn.status ≠ .ACTIVE) ∨
        (∃ (conn : AppConnection) (status : String),
          c3Env.dbConnection "GMAIL" = some conn ∧
          conn.status = .ACTIVE ∧
          effectiveConnectionStatus c3Env conn.accountId = .ok status ∧
          status ≠ "INITIATED" ∧ status ≠ "ACTIVE")) :=
  app_needs_connection_iff c3Env [] "GMAIL"

/-- Environment for the C4 counterexample: the routing cache names
`NOTION` (not among the recommended apps) and the user has no stored
connections at all. -/
def c4Env : PrepEnv where
  cachedAppRouting := some ["NOTION"]
  routeApps := .error ()
  dbConnection := fun _ => none
  cachedConnectionStatus := fun _ => none
  brokerConnectionStatus := fun _ => .ok "ACTIVE"
  cachedToolSearch := fun _ => none
  pineconeSearch := fun _ => .ok []
  getComposioTool := fun _ => .error ()

/-- The claim's set: apps among the top-3 by priority that are also in
`analysis.recommendedApps` and lack a stored ACTIVE or INITIATED
connection. -/
def claimedRequiredConnections (env : PrepEnv)
    (analysis : ComprehensiveAnalysis) : List String :=
  (prioritizedApps env analysis).filter (fun app =>
    decide (app ∈ analysis.recommendedApps) &&
      (match env.dbConnection app with
       | some conn =>
         decide (conn.status ≠ .ACTIVE) && decide (conn.status ≠ .INITIATED)
       | none => true))

/-- C4 counterexample: with recommended apps `[GMAIL]` but routed apps
`[NOTION]`, the code reports `NOTION` — an app outside
`recommendedApps` — so the returned list is not the claimed
intersection. -/
theorem requiredConnections_not_intersection :
    (prepareToolsForExecution c4Env wAnalysis []).2 = ["NOTION"] ∧
    claimedRequiredConnections c4Env wAnalysis = [] ∧
    (prepareToolsForExecution c4Env wAnalysis []).2 ≠
      claimedRequiredConnections c4Env wAnalysis :=
  ⟨rfl, rfl, by decide⟩

/-- The claim-style usability test matching what the code enforces: the
stored connection must exist with status ACTIVE and the broker-reported
status (cached or fetched successfully) must be INITIATED or ACTIVE; a
failed broker fetch does not count as lacking. -/
def lacksUsableConnection (env : PrepEnv) (app : String) : Bool :=
  match env.dbConnection app with
  | none => true
  | some conn =>
    if conn.status = .ACTIVE then
      match effectiveConnectionStatus env conn.accountId with
      | .ok status =>
        decide (status ≠ "INITIATED") && decide (status ≠ "ACTIVE")
      | .error _ => false
    else true

/-- An app lacks a usable connection exactly when its preparation task
reports it. -/
theorem lacks_iff_needsConnection (env : PrepEnv) (tools : List String)
    (app : String) :
    lacksUsableConnection env app = true ↔
      processApp env tools app = .needsConnection := by
  rw [processApp_needsConnection_char]
  unfold lacksUsableConnection
  rcases hdb : env.dbConnection app with _ | conn
  · simp
  · by_cases hact : conn.status = .ACTIVE
    · simp only [hact, if_pos]
      rcases hst : effectiveConnectionStatus env conn.accountId with _ | st
      · simp only []
        constructor
        · intro hcontr
          cases hcontr
        · rintro (hall | ⟨c, s, hc, hcact, heff, hs⟩)
          · exact absurd hact (hall conn rfl)
          · obtain rfl := Option.some.inj hc
            rw [heff] at hst
            cases hst
      · dsimp only
        constructor
        · intro hb
          rw [Bool.and_eq_true, decide_eq_true_iff, decide_eq_true_iff]
            at hb
          exact .inr ⟨conn, st, rfl, hact, hst, hb.1, hb.2⟩
        · rintro (hall | ⟨c, s, hc, hcact, heff, hs1, hs2⟩)
          · exact absurd hact (hall conn rfl)
          · obtain rfl := Option.some.inj hc
            rw [heff] at hst
            obtain rfl := Except.ok.inj hst
            rw [Bool.and_eq_true, decide_eq_true_iff, decide_eq_true_iff]
            exact ⟨hs1, hs2⟩
    · simp only [if_neg hact]
      constructor
      · intro _
        exact .inl (fun c hc => (Option.some.inj hc) ▸ hact)
      · intro _
        trivial

/-- C4 amended: whenever `recommendedApps` is non-empty (otherwise the
call short-circuits with no connections reported), the returned
`requiredConnections` equals the sublist of the top-3-by-priority routed
candidate apps that lack a usable connection — stored status ACTIVE with a
successfully resolved broker status in INITIATED/ACTIVE; no intersection
with `recommendedApps` is taken. -/
theorem prepare_requiredConnections_characterization (env : PrepEnv)
    (analysis : ComprehensiveAnalysis) (initialToolNames : List String)
    (h : analysis.recommendedApps ≠ []) :
    (prepareToolsForExecution env analysis initialToolNames).2 =
      (prioritizedApps env analysis).filter
        (fun app => lacksUsableConnection env app) := by
  unfold prepareToolsForExecution
  rw [if_neg (by simpa using h)]
  dsimp only
  generalize prioritizedApps env analysis = apps
  induction apps with
  | nil => rfl
  | cons a rest ih =>
    rcases hpa : processApp env initialToolNames a with _ | _ | tools
    · have hl : lacksUsableConnection env a = true :=
        (lacks_iff_needsConnection env initialToolNames a).mpr hpa
      simp [hpa, hl, ih]
    · have hl : lacksUsableConnection env a = false := by
        rw [Bool.eq_false_iff]
        intro hcontr
        rw [lacks_iff_needsConnection env initialToolNames a, hpa]
          at hcontr
        cases hcontr
      simp [hpa, hl, ih]
    · have hl : lacksUsableConnection env a = false := by
        rw [Bool.eq_false_iff]
        intro hcontr
        rw [lacks_iff_needsConnection env initialToolNames a, hpa]
          at hcontr
        cases hcontr
      simp [hpa, hl, ih]

/-- Witness for the C4 amended characterization at the concrete INITIATED
environment, where the one candidate app is reported. -/
theorem prepare_requiredConnections_characterization_witness :
    wAnalysis.recommendedApps ≠ [] ∧
    (prepareToolsForExecution c3Env wAnalysis []).2 =
      (prioritizedApps c3Env wAnalysis).filter
        (fun app => lacksUsableConnection c3Env app) :=
  ⟨by decide,
    prepare_requiredConnections_characterization c3Env wAnalysis []
      (by decide)⟩

end SuperAgent
